import Mathlib

/-!
# IOLink-CC: shallow embedding and verification

A shallow embedding of the IO-Link master implementation in `src/IOLink.cpp`
(namespace `IOLink`): the frame codec (`buildIOLinkMessage` /
`parseIOLinkMessage`), the master-side port operations (`activatePort`,
`deactivatePort`, `scanForDevices`, `getDevice`, `sendMessage`,
`receiveMessage`), and the base `IOLinkDevice` behaviour.

Bytes are modelled as `Nat` values (always `< 256` on the wire); `uint8_t`
truncation in the source is modelled with `% 256` where it occurs
(`static_cast<uint8_t>(payload.size())` in `buildIOLinkMessage`).  Fallible
operations return an `ErrorCode`, and `parseIOLinkMessage` returns
`Except ErrorCode (MessageType × List Nat)` mirroring the out-parameters of
the C++ function.  The serial transport seen by `receiveMessage` is modelled
as a trace of poll iterations: at each iteration of the C++ polling loop the
clock value read by `Milliseconds()` and the chunk of bytes drained from the
serial buffer are recorded.
-/

namespace IOLink

/-- Message types of the four logical channels.  The enum itself is declared
in the header `IOLink.h` (not present in `src/`); the member set and its
byte mapping are fixed by the `switch` statements of `buildIOLinkMessage`
and `parseIOLinkMessage` in `src/IOLink.cpp`. -/
inductive MessageType where
  | PROCESS_DATA
  | PARAMETER
  | DIAGNOSTIC
  | EVENT
  deriving DecidableEq, Repr

/-- Error codes returned by the engine.  The enum is declared in the missing
header `IOLink.h`; the members used by `src/IOLink.cpp` are `NONE`,
`INVALID_PARAMETER`, `TIMEOUT`, `COMMUNICATION_ERROR` and `NOT_SUPPORTED`;
`DEVICE_ERROR` is the remaining member named by the spec (§7). -/
inductive ErrorCode where
  | NONE
  | COMMUNICATION_ERROR
  | DEVICE_ERROR
  | TIMEOUT
  | INVALID_PARAMETER
  | NOT_SUPPORTED
  deriving DecidableEq, Repr

/-- Operation modes of a port.  The enum is declared in the missing header
`IOLink.h`; the member set (SIO and the three communication modes) is the
one named by the spec (§3) and the temperature-sensor header; only `COM2`
is referenced from `src/IOLink.cpp`. -/
inductive OperationMode where
  | SIO
  | COM1
  | COM2
  | COM3
  deriving DecidableEq, Repr

/-- The TYPE byte written for each message type: the `switch` in
`IOLinkMaster::buildIOLinkMessage` (src/IOLink.cpp:274-280). -/
def typeValueOf : MessageType → Nat
  | MessageType.PROCESS_DATA => 0x01
  | MessageType.PARAMETER => 0x02
  | MessageType.DIAGNOSTIC => 0x03
  | MessageType.EVENT => 0x04

/-- The message type decoded from a TYPE byte: the `switch` in
`IOLinkMaster::parseIOLinkMessage` (src/IOLink.cpp:230-236); any other
value is a framing error (`none` here, `COMMUNICATION_ERROR` at the call
site). -/
def typeOfValue : Nat → Option MessageType
  | 0x01 => some MessageType.PROCESS_DATA
  | 0x02 => some MessageType.PARAMETER
  | 0x03 => some MessageType.DIAGNOSTIC
  | 0x04 => some MessageType.EVENT
  | _ => none

/-- `IOLinkMaster::parseIOLinkMessage` (src/IOLink.cpp:213-262).
Frame format `[START_BYTE] [TYPE] [LENGTH] [PAYLOAD] [CHECKSUM]` with
`START_BYTE = 0xA5`; rejects inputs shorter than 4 bytes, a wrong start
byte, an unknown TYPE byte, a declared LENGTH exceeding the bytes present,
and a checksum mismatch, each with `COMMUNICATION_ERROR`.  The checksum is
the XOR of start byte, type byte, length byte and every payload byte.
Indexing uses `List.getD` with default `0`; every access is within bounds
under the size guards, exactly as in the C++ code. -/
def parseIOLinkMessage (rawData : List Nat) :
    Except ErrorCode (MessageType × List Nat) :=
  if rawData.length < 4 then
    Except.error ErrorCode.COMMUNICATION_ERROR
  else if rawData.getD 0 0 ≠ 0xA5 then
    Except.error ErrorCode.COMMUNICATION_ERROR
  else
    match typeOfValue (rawData.getD 1 0) with
    | none => Except.error ErrorCode.COMMUNICATION_ERROR
    | some t =>
      let length := rawData.getD 2 0
      if rawData.length < length + 4 then
        Except.error ErrorCode.COMMUNICATION_ERROR
      else
        let payload := (rawData.drop 3).take length
        let checksum := rawData.getD (3 + length) 0
        let calculated :=
          payload.foldl Nat.xor (Nat.xor (Nat.xor 0xA5 (rawData.getD 1 0)) length)
        if checksum ≠ calculated then
          Except.error ErrorCode.COMMUNICATION_ERROR
        else
          Except.ok (t, payload)

/-- `IOLinkMaster::buildIOLinkMessage` (src/IOLink.cpp:264-297): emits
`START_BYTE (0xA5)`, the TYPE byte, `static_cast<uint8_t>(payload.size())`
(modelled as `% 256`), the payload bytes, and the XOR checksum computed
from the start byte, type byte, truncated length byte and payload bytes. -/
def buildIOLinkMessage (t : MessageType) (payload : List Nat) : List Nat :=
  let typeValue := typeValueOf t
  let lengthByte := payload.length % 256
  let checksum := payload.foldl Nat.xor (Nat.xor (Nat.xor 0xA5 typeValue) lengthByte)
  0xA5 :: typeValue :: lengthByte :: (payload ++ [checksum])

/-- Flip bit `k` of the byte at index `i` of a frame. -/
def flipBit (frame : List Nat) (i k : Nat) : List Nat :=
  frame.set i (Nat.xor (frame.getD i 0) (2 ^ k))

/-- A discovered device record: the constructor arguments of `IOLinkDevice`
(src/IOLink.cpp:16-20): device id, 32-bit vendor id, 32-bit product id. -/
structure Device where
  deviceId : Nat
  vendorId : Nat
  productId : Nat
  deriving DecidableEq, Repr

/-- The placeholder device pushed by `IOLinkMaster::scanForDevices`
(src/IOLink.cpp:120): `IOLinkDevice(1, 0x12345678, 0x87654321)`. -/
def dummyDevice : Device :=
  ⟨1, 0x12345678, 0x87654321⟩

/-- The master's mutable state relevant to the port operations: the device
registry `m_devices` (a vector indexed by port). -/
structure MasterState where
  devices : List Device
  deriving DecidableEq, Repr

/-- `IOLinkMaster::activatePort` (src/IOLink.cpp:80-96).  Out-of-range port
index fails with `INVALID_PARAMETER` before any serial access; otherwise the
wake-up pattern (ten `0x00` bytes, `SendChar` in a loop) is transmitted and
the function returns `NONE` unconditionally (the discovery/activation logic
is a TODO in the source).  The second component is the list of bytes written
to the serial port.  The requested mode is ignored by the source. -/
def activatePort (st : MasterState) (port : Nat) (_mode : OperationMode) :
    ErrorCode × List Nat :=
  if st.devices.length ≤ port then (ErrorCode.INVALID_PARAMETER, [])
  else (ErrorCode.NONE, List.replicate 10 0)

/-- `IOLinkMaster::deactivatePort` (src/IOLink.cpp:98-107).  Out-of-range
port index fails with `INVALID_PARAMETER`; otherwise the function performs
no action at all (no serial access, no registry change) and returns `NONE`.
The second component is the master state after the call. -/
def deactivatePort (st : MasterState) (port : Nat) : ErrorCode × MasterState :=
  if st.devices.length ≤ port then (ErrorCode.INVALID_PARAMETER, st)
  else (ErrorCode.NONE, st)

/-- `IOLinkMaster::scanForDevices` (src/IOLink.cpp:109-124): clears
`m_devices`, then — discovery being a TODO — pushes the single placeholder
`IOLinkDevice(1, 0x12345678, 0x87654321)` and returns `NONE`.  No serial
access is performed, so the result does not depend on the previous state or
on the transport. -/
def scanForDevices (_st : MasterState) : ErrorCode × MasterState :=
  (ErrorCode.NONE, ⟨[dummyDevice]⟩)

/-- `IOLinkMaster::getDevice` (src/IOLink.cpp:126-131): `m_devices[port]`
when `port < m_devices.size()`, else `nullptr` (here `none`). -/
def getDevice (st : MasterState) (port : Nat) : Option Device :=
  if h : port < st.devices.length then some (st.devices.get ⟨port, h⟩)
  else none

/-- `IOLinkMaster::sendMessage` (src/IOLink.cpp:133-147).  Out-of-range port
index fails with `INVALID_PARAMETER` before any serial access; otherwise the
frame built by `buildIOLinkMessage` is written byte by byte and the call
returns `NONE`.  The second component is the list of bytes written to the
serial port. -/
def sendMessage (st : MasterState) (port : Nat) (t : MessageType)
    (data : List Nat) : ErrorCode × List Nat :=
  if st.devices.length ≤ port then (ErrorCode.INVALID_PARAMETER, [])
  else (ErrorCode.NONE, buildIOLinkMessage t data)

/-- One iteration of the polling loop of `IOLinkMaster::receiveMessage`
as seen from the transport: the value read from `Milliseconds()` at the
`while` condition, and the chunk of bytes drained from the serial buffer
during this iteration (`[]` when `BytesAvailable()` was `0`). -/
structure Iter where
  time : Nat
  bytes : List Nat
  deriving DecidableEq, Repr

/-- Outcome of a `receiveMessage` call: the returned `ErrorCode`, the value
of the out-parameter `data` when it was assigned (`none` when the call left
it untouched), the bytes consumed from the serial port, and the clock value
at the loop check on which the call returned (`none` when the call returned
before reading the clock). -/
structure RecvOut where
  result : ErrorCode
  payload : Option (List Nat)
  consumed : List Nat
  exitTime : Option Nat
  deriving DecidableEq, Repr

/-- The polling loop of `IOLinkMaster::receiveMessage`
(src/IOLink.cpp:158-178).  `rawData` is the accumulation buffer declared
before the loop: bytes drained from the serial port are appended to it and
it is never cleared, so every parse attempt re-reads the buffer from its
start.  The loop exits with `NONE` and the parsed payload when the
accumulated buffer parses as a frame of the expected type, and with
`TIMEOUT` at the first iteration whose clock check finds
`time - startTime < timeout` false.  Returns `none` when the recorded trace
ends before the call returns. -/
def receiveLoop (t : MessageType) (timeout startTime : Nat) :
    List Nat → List Iter → Option RecvOut
  | _, [] => none
  | rawData, it :: rest =>
    if it.time - startTime < timeout then
      if it.bytes.isEmpty then
        receiveLoop t timeout startTime rawData rest
      else
        let rawData2 := rawData ++ it.bytes
        match parseIOLinkMessage rawData2 with
        | Except.ok (rt, pl) =>
          if rt = t then some ⟨ErrorCode.NONE, some pl, rawData2, some it.time⟩
          else receiveLoop t timeout startTime rawData2 rest
        | Except.error _ => receiveLoop t timeout startTime rawData2 rest
    else
      some ⟨ErrorCode.TIMEOUT, none, rawData, some it.time⟩

/-- `IOLinkMaster::receiveMessage` (src/IOLink.cpp:149-182).  Out-of-range
port index fails with `INVALID_PARAMETER` before reading the clock or the
serial port; otherwise `startTime` is the value of `Milliseconds()` read on
entry and the polling loop runs against the recorded transport trace. -/
def receiveMessage (st : MasterState) (port : Nat) (t : MessageType)
    (timeout startTime : Nat) (iters : List Iter) : Option RecvOut :=
  if st.devices.length ≤ port then
    some ⟨ErrorCode.INVALID_PARAMETER, none, [], none⟩
  else receiveLoop t timeout startTime [] iters

namespace IOLinkDevice

/-- `IOLinkDevice::supportsOperationMode` (src/IOLink.cpp:22-25): the base
class supports exactly `COM2`. -/
def supportsOperationMode (mode : OperationMode) : Bool :=
  mode == OperationMode.COM2

/-- `IOLinkDevice::getMinCycleTime` (src/IOLink.cpp:27-30): 2 ms. -/
def getMinCycleTime : Nat := 2

/-- `IOLinkDevice::readProcessData` (src/IOLink.cpp:32-35): the base class
returns `NOT_SUPPORTED`, leaving the out-parameter untouched. -/
def readProcessData (data : List Nat) : ErrorCode × List Nat :=
  (ErrorCode.NOT_SUPPORTED, data)

/-- `IOLinkDevice::writeProcessData` (src/IOLink.cpp:37-40). -/
def writeProcessData (_data : List Nat) : ErrorCode :=
  ErrorCode.NOT_SUPPORTED

/-- `IOLinkDevice::readParameter` (src/IOLink.cpp:42-45). -/
def readParameter (_index : Nat) (_subindex : Nat) (data : List Nat) :
    ErrorCode × List Nat :=
  (ErrorCode.NOT_SUPPORTED, data)

/-- `IOLinkDevice::writeParameter` (src/IOLink.cpp:47-50). -/
def writeParameter (_index : Nat) (_subindex : Nat) (_data : List Nat) :
    ErrorCode :=
  ErrorCode.NOT_SUPPORTED

/-- `IOLinkDevice::readDiagnostic` (src/IOLink.cpp:52-55). -/
def readDiagnostic (data : List Nat) : ErrorCode × List Nat :=
  (ErrorCode.NOT_SUPPORTED, data)

end IOLinkDevice

/-- Bytes accumulated in the receive buffer of `receiveMessage` after the
first `n` poll iterations of a trace (the value of the C++ `rawData` vector
entering iteration `n`). -/
def accumBytes (iters : List Iter) (n : Nat) : List Nat :=
  ((iters.take n).map Iter.bytes).flatten

/-- A 256-byte payload, used to exercise the codec beyond the 255-byte
LENGTH range. -/
def bigPayload : List Nat :=
  List.replicate 256 0x42

/-- Whether a parse result is a successfully decoded frame of type `t`
(the success condition `result == ErrorCode::NONE && receivedType == type`
of the polling loop, src/IOLink.cpp:170). -/
def matchesType (r : Except ErrorCode (MessageType × List Nat))
    (t : MessageType) : Bool :=
  match r with
  | Except.ok (rt, _) => rt == t
  | Except.error _ => false

/-- A concrete silent transport trace: polls at times 100, 103 and 105, a
stray two-byte fragment (never a complete frame) arriving at 103. -/
def c6Iters : List Iter :=
  [⟨100, []⟩, ⟨103, [0x12, 0x34]⟩, ⟨105, []⟩]

/-- A complete, checksum-valid EVENT frame with empty payload:
`[0xA5, 0x04, 0x00, 0xA1]`. -/
def badFrame : List Nat :=
  buildIOLinkMessage MessageType.EVENT []

/-- A complete, checksum-valid PROCESS_DATA frame with payload
`[0x12, 0x34]`. -/
def goodFrame : List Nat :=
  buildIOLinkMessage MessageType.PROCESS_DATA [0x12, 0x34]

/-- Trace tail for the buffering scenario: the expected frame arrives at
time 2, then the line is silent until the deadline at time 10. -/
def c7Rest : List Iter :=
  [⟨2, goodFrame⟩, ⟨10, []⟩]

/-- Transport trace delivering a complete EVENT frame at time 1, then a
complete PROCESS_DATA frame at time 2, then silence past the deadline. -/
def c7Iters : List Iter :=
  ⟨1, badFrame⟩ :: c7Rest

/-!
## Helper lemmas
-/

/-- Decoding the TYPE byte written for `t` recovers `t`: the two `switch`
tables of the codec are mutually inverse. -/
theorem typeOfValue_typeValueOf (t : MessageType) :
    typeOfValue (typeValueOf t) = some t := by
  cases t <;> rfl

/-- Reading three `cons` cells off a `getD` access at offset `3 + n`. -/
theorem getD_cons3 (a b c d : Nat) (l : List Nat) (n : Nat) :
    (a :: b :: c :: l).getD (3 + n) d = l.getD n d := by
  rw [Nat.add_comm]
  simp [List.getD_cons_succ]

/-- Round-trip of the frame codec: for a payload of at most 255 bytes,
`parseIOLinkMessage` inverts `buildIOLinkMessage`. -/
theorem parse_build (t : MessageType) (payload : List Nat)
    (hlen : payload.length ≤ 255) :
    parseIOLinkMessage (buildIOLinkMessage t payload) = Except.ok (t, payload) := by
  have hmod : payload.length % 256 = payload.length := Nat.mod_eq_of_lt (by omega)
  unfold buildIOLinkMessage parseIOLinkMessage
  simp only [hmod, typeOfValue_typeValueOf, List.getD_cons_zero, List.getD_cons_succ,
    List.length_cons, List.length_append, List.length_nil, List.drop_succ_cons,
    List.drop_zero, getD_cons3, List.take_left]
  rw [List.getD_append_right _ _ _ _ (Nat.le_refl _), Nat.sub_self, List.getD_cons_zero]
  split_ifs with h1 h2 h3 h4
  · omega
  · simp at h2
  · omega
  · exact absurd rfl h4
  · rfl

/-- Associativity of `Nat.xor` (bridging the `^^^` form). -/
theorem nxor_assoc (a b c : Nat) :
    Nat.xor (Nat.xor a b) c = Nat.xor a (Nat.xor b c) := Nat.xor_assoc a b c

/-- Commutativity of `Nat.xor` (bridging the `^^^` form). -/
theorem nxor_comm (a b : Nat) : Nat.xor a b = Nat.xor b a := Nat.xor_comm a b

/-- `Nat.xor` is nilpotent (bridging the `^^^` form). -/
theorem nxor_self (a : Nat) : Nat.xor a a = 0 := Nat.xor_self a

/-- Zero is a right unit for `Nat.xor` (bridging the `^^^` form). -/
theorem nxor_zero (a : Nat) : Nat.xor a 0 = a := Nat.xor_zero a

/-- Zero is a left unit for `Nat.xor` (bridging the `^^^` form). -/
theorem nzero_xor (a : Nat) : Nat.xor 0 a = a := Nat.zero_xor a

/-- An XOR fold from a compound seed splits off the left operand. -/
theorem foldl_xor_xor (l : List Nat) (a b : Nat) :
    l.foldl Nat.xor (Nat.xor a b) = Nat.xor a (l.foldl Nat.xor b) := by
  induction l generalizing b with
  | nil => rfl
  | cons x xs ih =>
    simp only [List.foldl_cons]
    rw [nxor_assoc, ih]

/-- An XOR fold from seed `a` is `a` XORed with the fold from zero. -/
theorem foldl_xor_init (l : List Nat) (a : Nat) :
    l.foldl Nat.xor a = Nat.xor a (l.foldl Nat.xor 0) := by
  have h := foldl_xor_xor l a 0
  rwa [nxor_zero] at h

/-- `Nat.xor` is left-cancellative. -/
theorem xor_left_cancel {c a b : Nat} (h : Nat.xor c a = Nat.xor c b) : a = b := by
  have h2 := congrArg (Nat.xor c) h
  rwa [← nxor_assoc, ← nxor_assoc, nxor_self, nzero_xor, nzero_xor] at h2

/-- `Nat.xor` is right-cancellative. -/
theorem xor_right_cancel {a b c : Nat} (h : Nat.xor a c = Nat.xor b c) : a = b := by
  rw [nxor_comm a c, nxor_comm b c] at h
  exact xor_left_cancel h

/-- XOR with a non-zero value changes the value. -/
theorem xor_ne_self {a m : Nat} (hm : m ≠ 0) : Nat.xor a m ≠ a := by
  intro h
  apply hm
  apply xor_left_cancel (c := a)
  rw [nxor_zero, h]

/-- Powers of two are non-zero. -/
theorem two_pow_ne_zero (k : Nat) : (2 : Nat) ^ k ≠ 0 :=
  (Nat.pos_pow_of_pos k (by omega)).ne'

/-- XORing one element of a list into `m` XORs `m` into its XOR fold. -/
theorem foldl_xor_set (l : List Nat) (j : Nat) (hj : j < l.length) (m b : Nat) :
    (l.set j (Nat.xor (l.getD j 0) m)).foldl Nat.xor b
      = Nat.xor m (l.foldl Nat.xor b) := by
  induction l generalizing j b with
  | nil => simp at hj
  | cons x xs ih =>
    cases j with
    | zero =>
      simp only [List.getD_cons_zero, List.set_cons_zero, List.foldl_cons]
      rw [show Nat.xor b (Nat.xor x m) = Nat.xor m (Nat.xor b x) by
        rw [nxor_comm x m, ← nxor_assoc, nxor_comm b m, nxor_assoc]]
      exact foldl_xor_xor xs m (Nat.xor b x)
    | succ n =>
      simp only [List.getD_cons_succ, List.set_cons_succ, List.foldl_cons]
      exact ih n (by simpa using hj) (Nat.xor b x)

/-- Setting an index inside the left part of an append. -/
theorem set_append_left (l1 l2 : List Nat) (j : Nat) (hj : j < l1.length) (v : Nat) :
    (l1 ++ l2).set j v = l1.set j v ++ l2 := by
  induction l1 generalizing j with
  | nil => simp at hj
  | cons x xs ih =>
    cases j with
    | zero => simp
    | succ n => simp [ih n (by simpa using hj)]

/-- Setting at offset `3 + n` passes three `cons` cells. -/
theorem set_cons3 (a b c v : Nat) (l : List Nat) (n : Nat) :
    (a :: b :: c :: l).set (3 + n) v = a :: b :: c :: l.set n v := by
  rw [Nat.add_comm]
  simp [List.set_cons_succ]

/-- Everything a successful parse certifies about its input: minimum size,
start byte, decodable type byte, in-range declared length, the payload
slice and the validated checksum. -/
theorem parse_ok_elim {raw : List Nat} {t : MessageType} {pl : List Nat}
    (h : parseIOLinkMessage raw = Except.ok (t, pl)) :
    4 ≤ raw.length ∧ raw.getD 0 0 = 0xA5 ∧
      typeOfValue (raw.getD 1 0) = some t ∧
      raw.getD 2 0 + 4 ≤ raw.length ∧
      pl = (raw.drop 3).take (raw.getD 2 0) ∧
      raw.getD (3 + raw.getD 2 0) 0
        = pl.foldl Nat.xor (Nat.xor (Nat.xor 0xA5 (raw.getD 1 0)) (raw.getD 2 0)) := by
  simp only [parseIOLinkMessage] at h
  by_cases h4 : raw.length < 4
  · rw [if_pos h4] at h; exact Except.noConfusion h
  rw [if_neg h4] at h
  by_cases h0 : raw.getD 0 0 ≠ 0xA5
  · rw [if_pos h0] at h; exact Except.noConfusion h
  rw [if_neg h0] at h
  rw [not_ne_iff] at h0
  cases hty : typeOfValue (raw.getD 1 0) with
  | none => rw [hty] at h; exact Except.noConfusion h
  | some t2 =>
    rw [hty] at h
    dsimp only at h
    by_cases hl : raw.length < raw.getD 2 0 + 4
    · rw [if_pos hl] at h; exact Except.noConfusion h
    rw [if_neg hl] at h
    by_cases hc : raw.getD (3 + raw.getD 2 0) 0
        ≠ ((raw.drop 3).take (raw.getD 2 0)).foldl Nat.xor
            (Nat.xor (Nat.xor 0xA5 (raw.getD 1 0)) (raw.getD 2 0))
    · rw [if_pos hc] at h; exact Except.noConfusion h
    rw [if_neg hc] at h
    rw [not_ne_iff] at hc
    injection h with h2
    simp only [Prod.mk.injEq] at h2
    obtain ⟨rfl, hpl⟩ := h2
    exact ⟨by omega, h0, rfl, by omega, hpl.symm, by rw [← hpl]; exact hc⟩

/-- A successful parse only looks at the leading frame: appending further
bytes to the input does not change the result.  This is why the polling
loop never recovers once a non-matching complete frame heads its buffer. -/
theorem parse_ok_append {raw : List Nat} {t : MessageType} {pl : List Nat}
    (h : parseIOLinkMessage raw = Except.ok (t, pl)) (ext : List Nat) :
    parseIOLinkMessage (raw ++ ext) = Except.ok (t, pl) := by
  obtain ⟨h4, h0, hty, hl, hpl, hc⟩ := parse_ok_elim h
  have hg0 : (raw ++ ext).getD 0 0 = raw.getD 0 0 := List.getD_append _ _ _ _ (by omega)
  have hg1 : (raw ++ ext).getD 1 0 = raw.getD 1 0 := List.getD_append _ _ _ _ (by omega)
  have hg2 : (raw ++ ext).getD 2 0 = raw.getD 2 0 := List.getD_append _ _ _ _ (by omega)
  have hg3 : (raw ++ ext).getD (3 + raw.getD 2 0) 0 = raw.getD (3 + raw.getD 2 0) 0 :=
    List.getD_append _ _ _ _ (by omega)
  have htake : ((raw ++ ext).drop 3).take (raw.getD 2 0)
      = (raw.drop 3).take (raw.getD 2 0) := by
    rw [List.drop_append_of_le_length (by omega),
      List.take_append_of_le_length (by rw [List.length_drop]; omega)]
  simp only [parseIOLinkMessage, List.length_append]
  rw [if_neg (by omega), hg0, h0, if_neg (by simp), hg1, hty]
  dsimp only
  rw [hg2, if_neg (by omega), htake, ← hpl, hg3, hc, if_neg (by simp)]

/-- Prepending an iteration prepends its chunk to the accumulation. -/
theorem accumBytes_cons (it : Iter) (iters : List Iter) (n : Nat) :
    accumBytes (it :: iters) (n + 1) = it.bytes ++ accumBytes iters n := by
  simp [accumBytes]

/-- The accumulation is constant beyond the end of the trace. -/
theorem accumBytes_of_le (iters : List Iter) (n : Nat) (h : iters.length ≤ n) :
    accumBytes iters n = accumBytes iters iters.length := by
  unfold accumBytes
  rw [List.take_of_length_le h, List.take_length]

/-- If no accumulated buffer ever parses as a frame of the expected type,
and the trace reaches the deadline, the polling loop returns `TIMEOUT` at a
clock value at least `startTime + timeout`. -/
theorem receiveLoop_timeout (t : MessageType) (timeout startTime : Nat)
    (iters : List Iter) :
    ∀ rawData : List Nat,
      (∀ it ∈ iters, startTime ≤ it.time) →
      (∃ it ∈ iters, startTime + timeout ≤ it.time) →
      (∀ n, matchesType (parseIOLinkMessage (rawData ++ accumBytes iters n)) t = false) →
      ∃ consumed tExit,
        receiveLoop t timeout startTime rawData iters
          = some ⟨ErrorCode.TIMEOUT, none, consumed, some tExit⟩
        ∧ startTime + timeout ≤ tExit := by
  induction iters with
  | nil => intro rawData _ hlate _; simp at hlate
  | cons it rest ih =>
    intro rawData hmono hlate hnomatch
    by_cases hc : it.time - startTime < timeout
    · have hmono2 : ∀ i ∈ rest, startTime ≤ i.time := fun i hi => hmono i (by simp [hi])
      have hlate2 : ∃ i ∈ rest, startTime + timeout ≤ i.time := by
        rcases hlate with ⟨i, hi, hle⟩
        rcases List.mem_cons.mp hi with rfl | hi2
        · have := hmono i (by simp)
          omega
        · exact ⟨i, hi2, hle⟩
      by_cases hb : it.bytes.isEmpty = true
      · have hemp : it.bytes = [] := List.isEmpty_iff.mp hb
        have hnomatch2 : ∀ n,
            matchesType (parseIOLinkMessage (rawData ++ accumBytes rest n)) t = false := by
          intro n
          have h2 := hnomatch (n + 1)
          rwa [accumBytes_cons, hemp, List.nil_append] at h2
        simp only [receiveLoop]
        rw [if_pos hc, if_pos hb]
        exact ih rawData hmono2 hlate2 hnomatch2
      · have hnomatch2 : ∀ n,
            matchesType (parseIOLinkMessage ((rawData ++ it.bytes) ++ accumBytes rest n)) t
              = false := by
          intro n
          have h2 := hnomatch (n + 1)
          rwa [accumBytes_cons, ← List.append_assoc] at h2
        simp only [receiveLoop]
        rw [if_pos hc, if_neg hb]
        have h1 := hnomatch 1
        rw [show accumBytes (it :: rest) 1 = it.bytes by
          rw [show (1 : Nat) = 0 + 1 by rfl, accumBytes_cons]
          simp [accumBytes]] at h1
        cases hp : parseIOLinkMessage (rawData ++ it.bytes) with
        | ok pr =>
          obtain ⟨rt, pl⟩ := pr
          dsimp only
          have hne : rt ≠ t := by
            have h1b := h1
            rw [hp] at h1b
            simp only [matchesType, beq_eq_false_iff_ne, ne_eq] at h1b
            exact h1b
          rw [if_neg hne]
          exact ih (rawData ++ it.bytes) hmono2 hlate2 hnomatch2
        | error e =>
          dsimp only
          exact ih (rawData ++ it.bytes) hmono2 hlate2 hnomatch2
    · simp only [receiveLoop]
      rw [if_neg hc]
      refine ⟨rawData, it.time, rfl, ?_⟩
      have := hmono it (by simp)
      omega

/-- Once the accumulation buffer parses as a complete frame of a
non-expected type, the polling loop can never again succeed: every later
parse re-reads the same leading frame. -/
theorem receiveLoop_no_success (t : MessageType) (timeout startTime : Nat)
    (iters : List Iter) :
    ∀ (rawData : List Nat) (bt : MessageType) (bpl : List Nat),
      parseIOLinkMessage rawData = Except.ok (bt, bpl) → bt ≠ t →
      ∀ out, receiveLoop t timeout startTime rawData iters = some out →
        out.result ≠ ErrorCode.NONE := by
  induction iters with
  | nil =>
    intro rawData bt bpl _ _ out hout
    exact absurd hout (by simp [receiveLoop])
  | cons it rest ih =>
    intro rawData bt bpl hbad hne out hout
    simp only [receiveLoop] at hout
    by_cases hc : it.time - startTime < timeout
    · rw [if_pos hc] at hout
      by_cases hb : it.bytes.isEmpty = true
      · rw [if_pos hb] at hout
        exact ih rawData bt bpl hbad hne out hout
      · rw [if_neg hb] at hout
        have hbad2 := parse_ok_append hbad it.bytes
        rw [hbad2] at hout
        dsimp only at hout
        rw [if_neg hne] at hout
        exact ih (rawData ++ it.bytes) bt bpl hbad2 hne out hout
    · rw [if_neg hc] at hout
      injection hout with h2
      rw [← h2]
      intro hcon
      exact ErrorCode.noConfusion hcon

/-- Flipping any bit of the start byte of an encoded frame is caught by
the start-byte check. -/
theorem parse_flip_start (t : MessageType) (payload : List Nat)
    (hlen : payload.length ≤ 255) (k : Nat) :
    parseIOLinkMessage (flipBit (buildIOLinkMessage t payload) 0 k)
      = Except.error ErrorCode.COMMUNICATION_ERROR := by
  have hmod : payload.length % 256 = payload.length := Nat.mod_eq_of_lt (by omega)
  simp only [buildIOLinkMessage, flipBit, hmod, List.getD_cons_zero, List.set_cons_zero]
  unfold parseIOLinkMessage
  simp only [List.getD_cons_zero, List.getD_cons_succ, List.length_cons, List.length_append,
    List.length_nil]
  rw [if_neg (by omega), if_pos (xor_ne_self (two_pow_ne_zero k))]

/-- Flipping any bit of the type byte of an encoded frame is caught: either
the new type byte is not decodable, or the checksum no longer validates. -/
theorem parse_flip_type (t : MessageType) (payload : List Nat)
    (hlen : payload.length ≤ 255) (k : Nat) :
    parseIOLinkMessage (flipBit (buildIOLinkMessage t payload) 1 k)
      = Except.error ErrorCode.COMMUNICATION_ERROR := by
  have hmod : payload.length % 256 = payload.length := Nat.mod_eq_of_lt (by omega)
  simp only [buildIOLinkMessage, flipBit, hmod, List.getD_cons_zero, List.getD_cons_succ,
    List.set_cons_zero, List.set_cons_succ]
  unfold parseIOLinkMessage
  simp only [List.getD_cons_zero, List.getD_cons_succ, List.length_cons, List.length_append,
    List.length_nil, List.drop_succ_cons, List.drop_zero, getD_cons3, List.take_left]
  rw [if_neg (by omega), if_neg (by simp)]
  cases hty : typeOfValue (Nat.xor (typeValueOf t) (2 ^ k)) with
  | none => rfl
  | some t2 =>
    dsimp only
    rw [if_neg (by omega),
      List.getD_append_right _ _ _ _ (Nat.le_refl _), Nat.sub_self, List.getD_cons_zero]
    rw [if_pos ?_]
    intro hcon
    rw [foldl_xor_init payload (Nat.xor (Nat.xor 165 (typeValueOf t)) payload.length),
      foldl_xor_init payload
        (Nat.xor (Nat.xor 165 (Nat.xor (typeValueOf t) (2 ^ k))) payload.length)] at hcon
    have h2 := xor_right_cancel hcon
    have h3 := xor_right_cancel h2
    have h4 := xor_left_cancel h3
    exact xor_ne_self (two_pow_ne_zero k) h4.symm

/-- Flipping any bit of any payload byte of an encoded frame is caught by
the checksum comparison. -/
theorem parse_flip_payload (t : MessageType) (payload : List Nat)
    (hlen : payload.length ≤ 255) (j k : Nat) (hj : j < payload.length) :
    parseIOLinkMessage (flipBit (buildIOLinkMessage t payload) (3 + j) k)
      = Except.error ErrorCode.COMMUNICATION_ERROR := by
  have hmod : payload.length % 256 = payload.length := Nat.mod_eq_of_lt (by omega)
  simp only [buildIOLinkMessage, flipBit, hmod]
  rw [getD_cons3, List.getD_append _ _ _ _ hj, set_cons3, set_append_left _ _ _ hj]
  unfold parseIOLinkMessage
  simp only [List.getD_cons_zero, List.getD_cons_succ, List.length_cons, List.length_append,
    List.length_nil, List.length_set, List.drop_succ_cons, List.drop_zero, getD_cons3]
  rw [if_neg (by omega), if_neg (by simp), typeOfValue_typeValueOf]
  dsimp only
  rw [if_neg (by omega),
    List.take_left' (by rw [List.length_set]),
    List.getD_append_right _ _ _ _ (Nat.le_of_eq (by rw [List.length_set])),
    List.length_set, Nat.sub_self, List.getD_cons_zero]
  rw [if_pos ?_]
  rw [foldl_xor_set payload j hj (2 ^ k)
    (Nat.xor (Nat.xor 165 (typeValueOf t)) payload.length)]
  intro hcon
  have h2 : Nat.xor
      (List.foldl Nat.xor (Nat.xor (Nat.xor 165 (typeValueOf t)) payload.length) payload)
      (2 ^ k)
      = List.foldl Nat.xor (Nat.xor (Nat.xor 165 (typeValueOf t)) payload.length) payload := by
    rw [nxor_comm]
    exact hcon.symm
  exact xor_ne_self (two_pow_ne_zero k) h2

/-!
## Claim theorems
-/

/-- C1: for every message type and every byte payload of length at most
255, decoding the byte sequence produced by `buildIOLinkMessage` succeeds
and returns exactly the same type and payload; in particular
`encode(ProcessData, [0x12,0x34])` yields the bytes
`[0xA5, 0x01, 0x02, 0x12, 0x34, 0xA5 xor 0x01 xor 0x02 xor 0x12 xor 0x34]`
and decoding those bytes returns `(ProcessData, [0x12,0x34])`. -/
theorem C1_codec_roundtrip :
    (∀ (t : MessageType) (payload : List Nat), (∀ b ∈ payload, b < 256) →
      payload.length ≤ 255 →
      parseIOLinkMessage (buildIOLinkMessage t payload) = Except.ok (t, payload))
    ∧ buildIOLinkMessage MessageType.PROCESS_DATA [0x12, 0x34]
        = [0xA5, 0x01, 0x02, 0x12, 0x34,
            Nat.xor (Nat.xor (Nat.xor (Nat.xor 0xA5 0x01) 0x02) 0x12) 0x34]
    ∧ parseIOLinkMessage [0xA5, 0x01, 0x02, 0x12, 0x34,
            Nat.xor (Nat.xor (Nat.xor (Nat.xor 0xA5 0x01) 0x02) 0x12) 0x34]
        = Except.ok (MessageType.PROCESS_DATA, [0x12, 0x34]) :=
  ⟨fun t payload _ hlen => parse_build t payload hlen, rfl, rfl⟩

/-- Witness for C1 at the concrete input `(Parameter, [0x12, 0x34])`. -/
theorem C1_codec_roundtrip_witness :
    parseIOLinkMessage (buildIOLinkMessage MessageType.PARAMETER [0x12, 0x34])
      = Except.ok (MessageType.PARAMETER, [0x12, 0x34]) :=
  C1_codec_roundtrip.1 MessageType.PARAMETER [0x12, 0x34] (by decide) (by decide)

/-- C2 counterexample: flipping bit 0 of the LENGTH byte (index 2) of the
encoded frame for `(ProcessData, [0xA4])` does NOT make the parse fail with
`COMMUNICATION_ERROR` — the mutated frame `[0xA5, 0x01, 0x00, 0xA4, 0x01]`
parses successfully as `(ProcessData, [])`, because the byte `0xA4` now
read as the checksum equals the checksum of the empty-payload frame. -/
theorem C2_counterexample :
    flipBit (buildIOLinkMessage MessageType.PROCESS_DATA [0xA4]) 2 0
      = [0xA5, 0x01, 0x00, 0xA4, 0x01]
    ∧ parseIOLinkMessage [0xA5, 0x01, 0x00, 0xA4, 0x01]
        = Except.ok (MessageType.PROCESS_DATA, [])
    ∧ parseIOLinkMessage (flipBit (buildIOLinkMessage MessageType.PROCESS_DATA [0xA4]) 2 0)
        ≠ Except.error ErrorCode.COMMUNICATION_ERROR := by
  refine ⟨rfl, rfl, fun hcon => ?_⟩
  rw [show parseIOLinkMessage (flipBit (buildIOLinkMessage MessageType.PROCESS_DATA [0xA4]) 2 0)
      = Except.ok (MessageType.PROCESS_DATA, []) from rfl] at hcon
  exact Except.noConfusion hcon

/-- C2 (amended): for every valid `(type, payload)` with payload length at
most 255, flipping any single bit of the start byte, the type byte, or any
payload byte of the encoded frame makes `parseIOLinkMessage` fail with
`COMMUNICATION_ERROR`.  (A flip of the LENGTH byte or of the checksum byte
is excluded: a LENGTH-byte flip can yield a successfully parsed shorter
frame, see the counterexample.) -/
theorem C2_amended_flip_detected (t : MessageType) (payload : List Nat)
    (hbytes : ∀ b ∈ payload, b < 256) (hlen : payload.length ≤ 255)
    (i k : Nat) (hk : k < 8)
    (hi : i = 0 ∨ i = 1 ∨ (3 ≤ i ∧ i < 3 + payload.length)) :
    parseIOLinkMessage (flipBit (buildIOLinkMessage t payload) i k)
      = Except.error ErrorCode.COMMUNICATION_ERROR := by
  rcases hi with rfl | rfl | ⟨h3, hlt⟩
  · exact parse_flip_start t payload hlen k
  · exact parse_flip_type t payload hlen k
  · obtain ⟨j, rfl⟩ : ∃ j, i = 3 + j := ⟨i - 3, by omega⟩
    exact parse_flip_payload t payload hlen j k (by omega)

/-- Witness for the amended C2: flipping bit 0 of the first payload byte of
the frame for `(ProcessData, [0x12, 0x34])` is rejected. -/
theorem C2_amended_flip_detected_witness :
    parseIOLinkMessage
        (flipBit (buildIOLinkMessage MessageType.PROCESS_DATA [0x12, 0x34]) 3 0)
      = Except.error ErrorCode.COMMUNICATION_ERROR :=
  C2_amended_flip_detected MessageType.PROCESS_DATA [0x12, 0x34] (by decide) (by decide)
    3 0 (by decide) (by decide)

/-- C3: the claim says a port on which no device responds is left
deviceless after `scanForDevices` and the registry never contains a
fabricated placeholder.  The code contradicts this (and its own TODO
comments admit the stub): `scanForDevices` performs no transport access at
all and unconditionally installs the placeholder device
`IOLinkDevice(1, 0x12345678, 0x87654321)`, so after every scan —
including one where nothing answered — `getDevice(0)` returns that
fabricated device. -/
theorem C3_scan_fabricates_device (st : MasterState) :
    scanForDevices st = (ErrorCode.NONE, ⟨[dummyDevice]⟩)
    ∧ getDevice (scanForDevices st).2 0 = some dummyDevice :=
  ⟨rfl, rfl⟩

/-- C4: the claim says activating port 0 with no device present ends in
the Error state after the wake-up timeout and `getDevice(0)` is then
empty.  The code contradicts this (its TODO comment admits activation is
unimplemented): on the post-scan registry `[dummyDevice]`, `activatePort`
sends the ten-byte wake-up pattern and immediately reports success
(`NONE`) without waiting for any response, and `getDevice(0)` returns the
fabricated placeholder rather than an empty result. -/
theorem C4_activate_no_device_reports_success (mode : OperationMode) :
    activatePort ⟨[dummyDevice]⟩ 0 mode = (ErrorCode.NONE, List.replicate 10 0)
    ∧ getDevice ⟨[dummyDevice]⟩ 0 = some dummyDevice :=
  ⟨rfl, rfl⟩

/-- C5: every port-indexed operation called with an index at or beyond the
registry size returns `INVALID_PARAMETER` and performs no transport I/O:
`activatePort` and `sendMessage` write no bytes, `deactivatePort` leaves
the state untouched, and `receiveMessage` consumes no bytes and never
reads the clock, independently of the transport trace. -/
theorem C5_port_bounds (st : MasterState) (port : Nat)
    (hport : st.devices.length ≤ port) (mode : OperationMode) (t : MessageType)
    (data : List Nat) (timeout startTime : Nat) (iters : List Iter) :
    activatePort st port mode = (ErrorCode.INVALID_PARAMETER, [])
    ∧ deactivatePort st port = (ErrorCode.INVALID_PARAMETER, st)
    ∧ sendMessage st port t data = (ErrorCode.INVALID_PARAMETER, [])
    ∧ receiveMessage st port t timeout startTime iters
        = some ⟨ErrorCode.INVALID_PARAMETER, none, [], none⟩ := by
  refine ⟨?_, ?_, ?_, ?_⟩ <;>
    simp [activatePort, deactivatePort, sendMessage, receiveMessage, hport]

/-- Witness for C5: the empty registry with port index 0. -/
theorem C5_port_bounds_witness :
    activatePort ⟨[]⟩ 0 OperationMode.COM2 = (ErrorCode.INVALID_PARAMETER, [])
    ∧ deactivatePort ⟨[]⟩ 0 = (ErrorCode.INVALID_PARAMETER, ⟨[]⟩)
    ∧ sendMessage ⟨[]⟩ 0 MessageType.PROCESS_DATA [] = (ErrorCode.INVALID_PARAMETER, [])
    ∧ receiveMessage ⟨[]⟩ 0 MessageType.PROCESS_DATA 5 0 []
        = some ⟨ErrorCode.INVALID_PARAMETER, none, [], none⟩ :=
  C5_port_bounds ⟨[]⟩ 0 (by decide) OperationMode.COM2 MessageType.PROCESS_DATA [] 5 0 []

/-- C6: for a valid port index, if no accumulated input ever decodes as a
frame of the expected type, `receiveMessage` returns `TIMEOUT`, and only at
a clock reading at least `startTime + timeout` — never before the timeout
has elapsed.  (Clock readings are monotone and the trace reaches the
deadline.) -/
theorem C6_timeout_floor (st : MasterState) (port : Nat) (t : MessageType)
    (timeout startTime : Nat) (iters : List Iter)
    (hport : port < st.devices.length)
    (hmono : ∀ it ∈ iters, startTime ≤ it.time)
    (hlate : ∃ it ∈ iters, startTime + timeout ≤ it.time)
    (hnomatch : ∀ n, matchesType (parseIOLinkMessage (accumBytes iters n)) t = false) :
    ∃ consumed tExit,
      receiveMessage st port t timeout startTime iters
        = some ⟨ErrorCode.TIMEOUT, none, consumed, some tExit⟩
      ∧ startTime + timeout ≤ tExit := by
  unfold receiveMessage
  rw [if_neg (by omega)]
  exact receiveLoop_timeout t timeout startTime iters [] hmono hlate
    (fun n => by rw [List.nil_append]; exact hnomatch n)

/-- Witness for C6: a silent line polled at times 100, 103, 105 with
timeout 5 from start time 100. -/
theorem C6_timeout_floor_witness :
    ∃ consumed tExit,
      receiveMessage ⟨[dummyDevice]⟩ 0 MessageType.PROCESS_DATA 5 100 c6Iters
        = some ⟨ErrorCode.TIMEOUT, none, consumed, some tExit⟩
      ∧ 100 + 5 ≤ tExit :=
  C6_timeout_floor ⟨[dummyDevice]⟩ 0 MessageType.PROCESS_DATA 5 100 c6Iters
    (by decide) (by decide) (by decide)
    (fun n => by
      rcases n with _ | _ | _ | n
      · decide
      · decide
      · decide
      · rw [accumBytes_of_le c6Iters (n + 3) (by simp [c6Iters])]
        decide)

/-- C7 counterexample: after a complete, checksum-valid EVENT frame
(`badFrame`) arrives, a complete valid PROCESS_DATA frame (`goodFrame`)
arrives well before the deadline, yet `receiveMessage` expecting
PROCESS_DATA does not succeed: it times out, because the EVENT frame's
bytes were retained in the buffer and every parse re-reads them.  The
claim's prediction — success with payload `[0x12, 0x34]` — is false. -/
theorem C7_counterexample :
    parseIOLinkMessage badFrame = Except.ok (MessageType.EVENT, [])
    ∧ goodFrame = buildIOLinkMessage MessageType.PROCESS_DATA [0x12, 0x34]
    ∧ receiveMessage ⟨[dummyDevice]⟩ 0 MessageType.PROCESS_DATA 10 0 c7Iters
        = some ⟨ErrorCode.TIMEOUT, none, badFrame ++ goodFrame, some 10⟩ :=
  ⟨rfl, rfl, rfl⟩

/-- C7 (amended): a received frame that fails its checksum or has an
unexpected type is not returned, but its bytes ARE retained in the
accumulated receive buffer, and every subsequent parse re-reads that
buffer from its start; consequently, once a complete frame parsing with a
non-expected type heads the buffer, `receiveMessage` never succeeds — even
if a complete valid frame of the expected type arrives afterwards and
before the deadline — and the call ends with `TIMEOUT`. -/
theorem C7_amended_buffered_frame_blocks (st : MasterState) (port : Nat)
    (hport : port < st.devices.length) (t bt : MessageType) (bpl : List Nat)
    (hne : bt ≠ t) (chunk : List Nat)
    (hbad : parseIOLinkMessage chunk = Except.ok (bt, bpl))
    (t1 timeout startTime : Nat) (h1 : t1 - startTime < timeout)
    (rest : List Iter)
    (hmono : ∀ it ∈ rest, startTime ≤ it.time)
    (hlate : ∃ it ∈ rest, startTime + timeout ≤ it.time) :
    ∃ consumed tExit,
      receiveMessage st port t timeout startTime (⟨t1, chunk⟩ :: rest)
        = some ⟨ErrorCode.TIMEOUT, none, consumed, some tExit⟩ := by
  unfold receiveMessage
  rw [if_neg (by omega)]
  simp only [receiveLoop]
  have hlen4 : 4 ≤ chunk.length := (parse_ok_elim hbad).1
  have hnonempty : ¬ chunk.isEmpty = true := by
    intro hemp
    have := List.isEmpty_iff.mp hemp
    rw [this] at hlen4
    simp at hlen4
  rw [if_pos h1, if_neg hnonempty, List.nil_append, hbad]
  dsimp only
  rw [if_neg hne]
  obtain ⟨consumed, tExit, heq, _⟩ :=
    receiveLoop_timeout t timeout startTime rest chunk hmono hlate
      (fun n => by
        rw [parse_ok_append hbad]
        simp only [matchesType]
        exact beq_eq_false_iff_ne.mpr hne)
  exact ⟨consumed, tExit, heq⟩

/-- Witness for the amended C7: the concrete trace of `C7_counterexample`
(EVENT frame at time 1, PROCESS_DATA frame at time 2, silence at 10). -/
theorem C7_amended_buffered_frame_blocks_witness :
    ∃ consumed tExit,
      receiveMessage ⟨[dummyDevice]⟩ 0 MessageType.PROCESS_DATA 10 0
          (⟨1, badFrame⟩ :: c7Rest)
        = some ⟨ErrorCode.TIMEOUT, none, consumed, some tExit⟩ :=
  C7_amended_buffered_frame_blocks ⟨[dummyDevice]⟩ 0 (by decide)
    MessageType.PROCESS_DATA MessageType.EVENT [] (by decide) badFrame rfl
    1 10 0 (by decide) c7Rest (by decide) (by decide)

/-- C8 counterexample: on the registry `[dummyDevice]`, `deactivatePort 0`
succeeds (`NONE`) but does NOT destroy the device: `getDevice 0` on the
state after the call still returns the device, not an empty result. -/
theorem C8_counterexample :
    (deactivatePort ⟨[dummyDevice]⟩ 0).1 = ErrorCode.NONE
    ∧ getDevice (deactivatePort ⟨[dummyDevice]⟩ 0).2 0 = some dummyDevice :=
  ⟨rfl, rfl⟩

/-- C8 (amended): for every in-range port index, `deactivatePort` succeeds
(returns `NONE`) and leaves the device registry unchanged, so a subsequent
`getDevice` on that port returns exactly what it returned before the
call. -/
theorem C8_amended_deactivate_keeps_registry (st : MasterState) (port : Nat)
    (hport : port < st.devices.length) :
    deactivatePort st port = (ErrorCode.NONE, st)
    ∧ getDevice (deactivatePort st port).2 port = getDevice st port := by
  constructor
  · unfold deactivatePort
    rw [if_neg (by omega)]
  · unfold deactivatePort
    rw [if_neg (by omega)]

/-- Witness for the amended C8 at the registry `[dummyDevice]`, port 0. -/
theorem C8_amended_deactivate_keeps_registry_witness :
    deactivatePort ⟨[dummyDevice]⟩ 0 = (ErrorCode.NONE, ⟨[dummyDevice]⟩)
    ∧ getDevice (deactivatePort ⟨[dummyDevice]⟩ 0).2 0 = getDevice ⟨[dummyDevice]⟩ 0 :=
  C8_amended_deactivate_keeps_registry ⟨[dummyDevice]⟩ 0 (by decide)

/-- C9: the base `IOLinkDevice` supports exactly COM2 (not SIO, COM1 or
COM3), has minimum cycle time 2, and every data-access operation returns
`NOT_SUPPORTED` for every input, leaving out-parameters untouched. -/
theorem C9_base_device_defaults :
    IOLinkDevice.supportsOperationMode OperationMode.COM2 = true
    ∧ IOLinkDevice.supportsOperationMode OperationMode.SIO = false
    ∧ IOLinkDevice.supportsOperationMode OperationMode.COM1 = false
    ∧ IOLinkDevice.supportsOperationMode OperationMode.COM3 = false
    ∧ IOLinkDevice.getMinCycleTime = 2
    ∧ (∀ data, IOLinkDevice.readProcessData data = (ErrorCode.NOT_SUPPORTED, data))
    ∧ (∀ data, IOLinkDevice.writeProcessData data = ErrorCode.NOT_SUPPORTED)
    ∧ (∀ index subindex data, IOLinkDevice.readParameter index subindex data
        = (ErrorCode.NOT_SUPPORTED, data))
    ∧ (∀ index subindex data, IOLinkDevice.writeParameter index subindex data
        = ErrorCode.NOT_SUPPORTED)
    ∧ (∀ data, IOLinkDevice.readDiagnostic data = (ErrorCode.NOT_SUPPORTED, data)) :=
  ⟨rfl, rfl, rfl, rfl, rfl, fun _ => rfl, fun _ => rfl, fun _ _ _ => rfl,
    fun _ _ _ => rfl, fun _ => rfl⟩

/-- C10: for a payload longer than 255 bytes, `buildIOLinkMessage` does
not reject or truncate the payload: the frame is the start byte, the type
byte, a LENGTH byte equal to the payload length modulo 256, ALL payload
bytes, and a checksum computed over the truncated length byte; and no
successful parse of that frame returns the original payload (the decoded
payload always has the truncated length). -/
theorem C10_oversized_payload (t : MessageType) (payload : List Nat)
    (hlen : 255 < payload.length) :
    buildIOLinkMessage t payload
      = 0xA5 :: typeValueOf t :: (payload.length % 256) ::
          (payload ++ [payload.foldl Nat.xor
            (Nat.xor (Nat.xor 0xA5 (typeValueOf t)) (payload.length % 256))])
    ∧ ∀ (t2 : MessageType) (pl2 : List Nat),
        parseIOLinkMessage (buildIOLinkMessage t payload) = Except.ok (t2, pl2) →
        pl2 ≠ payload := by
  refine ⟨rfl, fun t2 pl2 hok => ?_⟩
  obtain ⟨_, _, _, _, hpl, _⟩ := parse_ok_elim hok
  intro hcon
  have h4 := congrArg List.length hpl
  rw [List.length_take, hcon] at h4
  have h5 : payload.length % 256 < 256 := Nat.mod_lt _ (by omega)
  have h2 : (buildIOLinkMessage t payload).getD 2 0 = payload.length % 256 := rfl
  rw [h2] at h4
  omega

/-- Witness for C10 at the 256-byte payload `bigPayload`. -/
theorem C10_oversized_payload_witness :
    (buildIOLinkMessage MessageType.PROCESS_DATA bigPayload
      = 0xA5 :: typeValueOf MessageType.PROCESS_DATA :: (bigPayload.length % 256) ::
          (bigPayload ++ [bigPayload.foldl Nat.xor
            (Nat.xor (Nat.xor 0xA5 (typeValueOf MessageType.PROCESS_DATA))
              (bigPayload.length % 256))]))
    ∧ ∀ (t2 : MessageType) (pl2 : List Nat),
        parseIOLinkMessage (buildIOLinkMessage MessageType.PROCESS_DATA bigPayload)
          = Except.ok (t2, pl2) → pl2 ≠ bigPayload :=
  C10_oversized_payload MessageType.PROCESS_DATA bigPayload
    (by unfold bigPayload; rw [List.length_replicate]; omega)

end IOLink
